import Mathlib

/-!
Verification of the LifeGuard AI cardiac-crisis coordinator
(`src/lambda_function.py`) against its natural-language specification.

The repository is a single AWS Lambda handler that:
  1. initializes three service clients (Bedrock runtime, DynamoDB, SES);
  2. answers health probes (missing or GET method) with a static ready body;
  3. for submit requests: parses the symptoms text, fetches the patient
     profile, classifies the symptoms with a language model, conditionally
     sends one alert email, and assembles a response envelope.

Python strings are embedded as `List Char`; Python dicts produced by
`json.loads` are embedded as the `Json` inductive below.  The three AWS
clients are embedded as oracles (pure functions describing what each
external call would return or raise on this invocation); raising an
exception is embedded as `Except.error` carrying the message string.
Each operation also reports the external calls it performed so that
frame claims ("the mail service is not invoked") are statable.
-/

namespace LifeGuard

/-- Python strings are modelled as lists of characters. -/
abbrev Str := List Char

/-- Python `str.isspace` characters stripped by `str.strip()`. -/
def pyIsSpace (c : Char) : Bool :=
  c == ' ' || c == '\t' || c == '\n' || c == '\r' || c == '\x0b' || c == '\x0c'

/-- Python `str.strip()`: drop whitespace from both ends. -/
def pyStrip (s : Str) : Str :=
  ((s.dropWhile pyIsSpace).reverse.dropWhile pyIsSpace).reverse

/-- Python `str.find(c)`: index of the first occurrence of `c`, else `-1`. -/
def pyFind (s : Str) (c : Char) : Int :=
  match s.findIdx? (fun x => x == c) with
  | some i => (i : Int)
  | none => -1

/-- Python `str.rfind(c)`: index of the last occurrence of `c`, else `-1`. -/
def pyRFind (s : Str) (c : Char) : Int :=
  match s.reverse.findIdx? (fun x => x == c) with
  | some i => (s.length : Int) - 1 - (i : Int)
  | none => -1

/-- Python slicing `s[a:b]` for the in-range non-negative indices the code
reaches (`classify_emergency` slices only when `0 ≤ a < b`). -/
def pySlice (s : Str) (a b : Int) : Str :=
  (s.take b.toNat).drop a.toNat

/-- JSON values exchanged by this system: strings and objects.  This is the
fragment of Python's JSON data model that the Lambda produces or consumes
(request bodies, model verdicts, response envelopes); other JSON forms are
reported as parse errors by `json_loads` below. -/
inductive Json where
  | str : Str → Json
  | obj : List (Str × Json) → Json

/-- Python dict lookup `d.get(k)` on a parsed JSON object.  `json.loads`
builds the dict left to right, so a repeated key keeps its last value;
looking the reversed field list up from the front realizes that. -/
def dictGet (kvs : List (Str × Json)) (k : Str) : Option Json :=
  kvs.reverse.lookup k

/-- Lookup of key `k` when the value is a JSON object; `none` otherwise. -/
def jsonGet (j : Json) (k : Str) : Option Json :=
  match j with
  | .obj kvs => dictGet kvs k
  | _ => none

/-- Python equality test of a JSON value against a string literal (a dict or
non-matching string compares unequal, it does not raise). -/
def isStrVal (j : Json) (s : Str) : Bool :=
  match j with
  | .str t => t == s
  | _ => false

mutual

/-- Python `str(v)` for a parsed JSON value, as interpolated by f-strings:
a string renders as itself, a dict as its repr. -/
def pyStrOf : Json → Str
  | .str s => s
  | .obj kvs => '\x7b' :: pyReprFields kvs ++ ['\x7d']

/-- Repr of a dict's fields, comma separated, as Python renders them. -/
def pyReprFields : List (Str × Json) → Str
  | [] => []
  | (k, v) :: rest =>
    let item := '\x27' :: k ++ '\x27' :: ':' :: ' ' :: pyReprVal v
    match rest with
    | [] => item
    | _ => item ++ ',' :: ' ' :: pyReprFields rest

/-- Repr of a JSON value nested inside a dict (strings are quoted). -/
def pyReprVal : Json → Str
  | .str s => '\x27' :: s ++ ['\x27']
  | .obj kvs => '\x7b' :: pyReprFields kvs ++ ['\x7d']

end

/-- JSON whitespace skipped between tokens by `json.loads`. -/
def jsonWs (c : Char) : Bool :=
  c == ' ' || c == '\t' || c == '\n' || c == '\r'

/-- Skip JSON inter-token whitespace. -/
def skipWs (s : Str) : Str := s.dropWhile jsonWs

/-- Parse the body of a JSON string after its opening quote, returning the
content and the remaining input.  Escape sequences are outside the fragment
this system exchanges and are reported as errors. -/
def parseStringBody : Str → Except Str (Str × Str)
  | [] => .error "Unterminated string".toList
  | c :: rest =>
    if c == '"' then .ok ([], rest)
    else if c == '\\' then .error "Unsupported escape sequence".toList
    else
      match parseStringBody rest with
      | .ok (s, r) => .ok (c :: s, r)
      | .error e => .error e

mutual

/-- Parse one JSON value (string or object), fuelled by input length. -/
def parseValue : Nat → Str → Except Str (Json × Str)
  | 0, _ => .error "Out of fuel".toList
  | Nat.succ fuel, s =>
    match skipWs s with
    | '"' :: rest =>
      match parseStringBody rest with
      | .ok (t, r) => .ok (Json.str t, r)
      | .error e => .error e
    | '\x7b' :: rest =>
      match skipWs rest with
      | '\x7d' :: r => .ok (Json.obj [], r)
      | s2 =>
        match parsePairs fuel s2 with
        | .ok (kvs, r) => .ok (Json.obj kvs, r)
        | .error e => .error e
    | _ => .error "Expecting value".toList

/-- Parse the non-empty member list of a JSON object, up to and including
the closing brace. -/
def parsePairs : Nat → Str → Except Str (List (Str × Json) × Str)
  | 0, _ => .error "Out of fuel".toList
  | Nat.succ fuel, s =>
    match skipWs s with
    | '"' :: rest =>
      match parseStringBody rest with
      | .error e => .error e
      | .ok (k, r1) =>
        match skipWs r1 with
        | ':' :: r2 =>
          match parseValue fuel r2 with
          | .error e => .error e
          | .ok (v, r3) =>
            match skipWs r3 with
            | ',' :: r4 =>
              match parsePairs fuel r4 with
              | .ok (kvs, r5) => .ok ((k, v) :: kvs, r5)
              | .error e => .error e
            | '\x7d' :: r4 => .ok ([(k, v)], r4)
            | _ => .error "Expecting delimiter".toList
        | _ => .error "Expecting colon delimiter".toList
    | _ => .error "Expecting property name".toList

end

/-- Python `json.loads` on the JSON fragment this system exchanges: one
value followed by nothing but whitespace.  A failure result embeds the
raised `json.JSONDecodeError`. -/
def json_loads (s : Str) : Except Str Json :=
  match parseValue (s.length + 1) s with
  | .error e => .error e
  | .ok (v, rest) =>
    if (skipWs rest).isEmpty then .ok v else .error "Extra data".toList

/-! Configuration constants (`lambda_function.py` lines 6-13). -/

/-- Configured AWS region. -/
def REGION : Str := "us-east-1".toList

/-- Configured DynamoDB table name. -/
def TABLE_NAME : Str := "ElderlyCareProfiles".toList

/-- The single hardcoded patient identifier. -/
def PATIENT_ID : Str := "P101".toList

/-- Configured verified SES sender address. -/
def SENDER_EMAIL : Str := "yourverifiedemail@example.com".toList

/-- Bedrock model identifier used by `classify_emergency`. -/
def BEDROCK_MODEL_ID : Str := "anthropic.claude-3-sonnet-20240229-v1:0".toList

/-- The DynamoDB item for the configured patient, as `send_alert` and the
handler read it: `Name`, `Age`, `Comorbidities` and `Meds` are indexed with
`[...]` (the stored profile schema provides them; `Age` is embedded as the
string its value renders to in an f-string), while `Caregiver_Email` is read
with `.get` and may be absent. -/
structure PatientData where
  Name : Str
  Age : Str
  Comorbidities : Str
  Meds : Str
  Caregiver_Email : Option Str

/-- One SES `send_email` request as `send_alert` issues it. -/
structure SendReq where
  Source : Str
  ToAddresses : List Str
  SubjectData : Str
  BodyData : Str

/-- What one SES `send_email` call does: succeed, raise a botocore
`ClientError` carrying `response.Error.Message` (the only exception
`send_alert` catches), or raise some other exception. -/
inductive SesOutcome where
  | ack
  | clientError (message : Str)
  | raised (e : Str)

/-- The three AWS clients built by `initialize_clients`, embedded as oracles
describing this invocation's external world: `bedrock_runtime` maps the
prompt sent by `invoke_model` to the completion text extracted on lines
51-53 (or to the exception any of those lines raises); `dynamodb` is the
`get_item` outcome for the configured patient key (absent item = `none`);
`ses_client` maps a send request to its outcome. -/
structure Clients where
  bedrock_runtime : Str → Except Str Str
  dynamodb : Except Str (Option PatientData)
  ses_client : SendReq → SesOutcome

/-- The result dict returned by `send_alert`. -/
structure AlertResult where
  AlertStatus : Str
  Message : Str

/-- External calls performed during one invocation, so that frame claims
("the classifier is not invoked") are statable: how many DynamoDB reads,
how many Bedrock invocations, and the list of SES send requests. -/
structure Trace where
  dynamoCalls : Nat
  bedrockCalls : Nat
  sesCalls : List SendReq

/-- Retrieval of the patient record (`get_patient_data`, lines 26-30):
one `get_item` call on the configured table and key; `response.get
(Item, None)` yields the item or `None`. -/
def get_patient_data (dynamodb_resource : Except Str (Option PatientData)) :
    Except Str (Option PatientData) :=
  dynamodb_resource

/-- The triage instruction template (lines 37-46) with the raw user
statement embedded verbatim. -/
def prompt_template (user_input : Str) : Str :=
  "\n    You are an AI Triage Agent. Given the statement, classify the emergency type and the required action. \n    Emergency Type MUST be one of: [CARDIAC_STROKE, FALLS_FRACTURES, BREATHING_CRISIS, NONE].\n    Action MUST be one of: [MOCK_AMBULANCE_DISPATCH, ADVISE_INHALER, ALERT_FAMILY, NONE].\n    \n    Statement: \"".toList
  ++ user_input
  ++ "\"\n    \n    Respond ONLY with the EXACT JSON object format below. DO NOT add any extra text or markdown.\n    \x7b\"emergency_type\": \"<TYPE>\", \"action\": \"<ACTION>\"\x7d\n    ".toList

/-- The sentinel verdict returned on line 61 when no valid brace pair is
found in the completion text. -/
def errorVerdict : Json :=
  Json.obj [("emergency_type".toList, Json.str "ERROR".toList),
            ("action".toList, Json.str "ERROR".toList)]

/-- Symptom triage (`classify_emergency`, lines 32-61).  The model is
invoked once with the filled prompt template (the request envelope built
on lines 48-50 and unpacked on lines 52-53 is absorbed into the
`bedrock_runtime` oracle); the completion text is stripped, the substring
from the first `\x7b` to the last `\x7d` is sliced out and parsed.  The
function has no exception handler of its own: an invocation failure or a
`json.loads` failure propagates (`Except.error`); the ERROR sentinel is
returned only when no valid brace pair is found. -/
def classify_emergency (bedrock_client : Str → Except Str Str)
    (user_input : Str) : Except Str Json :=
  match bedrock_client (prompt_template user_input) with
  | .error e => .error e
  | .ok raw =>
    let completion_text := pyStrip raw
    let start := pyFind completion_text '\x7b'
    let end_ := pyRFind completion_text '\x7d' + 1
    if start ≠ -1 ∧ end_ ≠ -1 ∧ start < end_ then
      json_loads (pySlice completion_text start end_)
    else
      .ok errorVerdict

/-- The alert email body (`msg_body`, lines 71-79). -/
def msg_body (patient_data : PatientData) (alert_type action : Json) : Str :=
  "\n    *** URGENT LIFE-GUARD AI ALERT ***\n    Patient: ".toList
  ++ patient_data.Name ++ " (".toList ++ patient_data.Age
  ++ ") - ID ".toList ++ PATIENT_ID
  ++ "\n    EMERGENCY: ".toList ++ pyStrOf alert_type
  ++ "\n    ACTION: ".toList ++ pyStrOf action
  ++ "\n    Patient Info Packet: Comorbidities: ".toList
  ++ patient_data.Comorbidities
  ++ ". Medications: ".toList ++ patient_data.Meds
  ++ ".\n    ---\n    This alert guarantees delivery and provides an auditable record of the crisis triage.\n    ".toList

/-- The SES request built on lines 85-92 for a given patient, verdict
fields and recipient. -/
def alert_request (patient_data : PatientData) (alert_type action : Json)
    (recipient_email : Str) : SendReq :=
  { Source := SENDER_EMAIL
    ToAddresses := [recipient_email]
    SubjectData := "URGENT LIFE-GUARD AI ALERT: ".toList ++ pyStrOf alert_type
      ++ " DETECTED".toList
    BodyData := msg_body patient_data alert_type action }

/-- Python truthiness of an optional string (`if recipient_email:`):
false for `None` and for the empty string. -/
def pyTruthy : Option Str → Bool
  | none => false
  | some s => !s.isEmpty

/-- Alert dispatch (`send_alert`, lines 63-99).  Reads the verdict's
`emergency_type` (a missing key raises); skips for NONE or ERROR; builds
the message (reading `action`, which may also raise); reads the caregiver
email with `.get` and, when truthy, performs exactly one `send_email`
call, reporting EMAIL_SENT_CONFIRMED on success and FAILED with the
provider's message on a caught `ClientError` (any other exception from the
send propagates); when the caregiver email is absent or empty, reports
FAILED without any send call.  The second component lists the SES calls
performed. -/
def send_alert (ses_client : SendReq → SesOutcome)
    (patient_data : PatientData) (classification : Json) :
    Except Str AlertResult × List SendReq :=
  match jsonGet classification "emergency_type".toList with
  | none => (.error "KeyError: emergency_type".toList, [])
  | some alert_type =>
    if isStrVal alert_type "NONE".toList || isStrVal alert_type "ERROR".toList then
      (.ok { AlertStatus := "Skipped".toList,
             Message := "No critical action required.".toList }, [])
    else
      match jsonGet classification "action".toList with
      | none => (.error "KeyError: action".toList, [])
      | some action =>
        let recipient? := patient_data.Caregiver_Email
        if pyTruthy recipient? then
          let recipient_email := recipient?.getD []
          let req := alert_request patient_data alert_type action recipient_email
          match ses_client req with
          | .ack =>
            (.ok { AlertStatus := "EMAIL_SENT_CONFIRMED".toList,
                   Message := "Guaranteed email alert sent for ".toList
                     ++ pyStrOf alert_type ++ " to caregiver: ".toList
                     ++ recipient_email }, [req])
          | .clientError m =>
            (.ok { AlertStatus := "FAILED".toList,
                   Message := "SES Error: ".toList ++ m }, [req])
          | .raised e => (.error e, [req])
        else
          (.ok { AlertStatus := "FAILED".toList,
                 Message := "Caregiver Email missing in DynamoDB.".toList }, [])

/-! The HTTP layer (`lambda_handler`, lines 102-154). -/

/-- An API Gateway event as the handler inspects it: the `httpMethod` key
(absent for bare invocations) and the `body` key. -/
structure LambdaEvent where
  httpMethod : Option Str
  body : Option Str

/-- A handler response: status code, headers, and the dict passed to
`json.dumps` as the body (kept structured; `json.dumps` is plain
serialization). -/
structure HttpResponse where
  statusCode : Nat
  headers : List (Str × Str)
  body : Json

/-- The CORS-plus-content-type header dict used by every response except
the client-initialization failure. -/
def jsonHeaders : List (Str × Str) :=
  [("Content-Type".toList, "application/json".toList),
   ("Access-Control-Allow-Origin".toList, "*".toList)]

/-- Response when client initialization failed (line 107). -/
def init_fail_response : HttpResponse :=
  { statusCode := 500
    headers := [("Access-Control-Allow-Origin".toList, "*".toList)]
    body := Json.obj
      [("status".toList, Json.str "Error".toList),
       ("message".toList,
        Json.str "Critical: AWS Client Initialization Failed.".toList)] }

/-- Static ready acknowledgment for health probes (lines 111-116). -/
def ready_response : HttpResponse :=
  { statusCode := 200
    headers := jsonHeaders
    body := Json.obj
      [("status".toList, Json.str "Ready for POST".toList),
       ("message".toList,
        Json.str "Agent is waiting for symptom data.".toList)] }

/-- The catch-all failure envelope (lines 148-154) with `str(e)` as the
error detail. -/
def error_response (detail : Str) : HttpResponse :=
  { statusCode := 500
    headers := jsonHeaders
    body := Json.obj
      [("status".toList, Json.str "Error".toList),
       ("message".toList, Json.str "Backend Processing Failure.".toList),
       ("error_detail".toList, Json.str detail)] }

/-- The success envelope (lines 132-146): overall status, echoed input,
the verdict, the reduced patient-info packet (name, comorbidities, meds)
and the alert outcome. -/
def success_response (user_input : Str) (classification : Json)
    (patient_data : PatientData) (alert_result : AlertResult) : HttpResponse :=
  { statusCode := 200
    headers := jsonHeaders
    body := Json.obj
      [("status".toList, Json.str "Success".toList),
       ("message".toList, Json.str "AI Agent workflow completed.".toList),
       ("input_symptoms".toList, Json.str user_input),
       ("ai_classification".toList, classification),
       ("patient_info_packet".toList, Json.obj
         [("name".toList, Json.str patient_data.Name),
          ("comorbidities".toList, Json.str patient_data.Comorbidities),
          ("meds".toList, Json.str patient_data.Meds)]),
       ("alert_status".toList, Json.obj
         [("AlertStatus".toList, Json.str alert_result.AlertStatus),
          ("Message".toList, Json.str alert_result.Message)])] }

/-- Lines 121-123: parse the request body (`json.loads` of the `body`
value, defaulting to an empty object when the key is absent), read the
`symptoms` field defaulting to the empty string, strip it, and substitute
the placeholder when the result is empty.  A parse failure raises; so does
`.get` on a non-dict body or `.strip()` on a non-string symptoms value. -/
def compute_user_input (body? : Option Str) : Except Str Str :=
  match json_loads (body?.getD "\x7b\x7d".toList) with
  | .error e => .error e
  | .ok (Json.obj kvs) =>
    match dictGet kvs "symptoms".toList with
    | none => .ok "No symptoms provided.".toList
    | some (Json.str s) =>
      let stripped := pyStrip s
      .ok (if stripped.isEmpty then "No symptoms provided.".toList else stripped)
    | some _ => .error "AttributeError: strip on non-string symptoms".toList
  | .ok _ => .error "AttributeError: get on non-dict body".toList

/-- The handler (`lambda_handler`, lines 102-154).  `clients?` is the
result of `initialize_clients`: `none` when construction of any client
raised (the Python then holds three `None`s and `not all [...]` trips).
The handler first short-circuits on initialization failure, then answers
health probes (no `httpMethod` key, or GET) with the static ready body,
and otherwise runs the workflow, mapping any raised exception to the
catch-all failure envelope.  The returned `Trace` records the external
calls performed. -/
def lambda_handler (clients? : Option Clients) (event : LambdaEvent) :
    HttpResponse × Trace :=
  match clients? with
  | none => (init_fail_response, ⟨0, 0, []⟩)
  | some clients =>
    if event.httpMethod = none ∨ event.httpMethod = some "GET".toList then
      (ready_response, ⟨0, 0, []⟩)
    else
      match compute_user_input event.body with
      | .error e => (error_response e, ⟨0, 0, []⟩)
      | .ok user_input =>
        match get_patient_data clients.dynamodb with
        | .error e => (error_response e, ⟨1, 0, []⟩)
        | .ok none =>
          (error_response ("Patient ID ".toList ++ PATIENT_ID
            ++ " not found.".toList), ⟨1, 0, []⟩)
        | .ok (some patient_data) =>
          match classify_emergency clients.bedrock_runtime user_input with
          | .error e => (error_response e, ⟨1, 1, []⟩)
          | .ok classification =>
            match send_alert clients.ses_client patient_data classification with
            | (.error e, calls) => (error_response e, ⟨1, 1, calls⟩)
            | (.ok alert_result, calls) =>
              (success_response user_input classification patient_data
                alert_result, ⟨1, 1, calls⟩)

/-! Shared abbreviations for the dispatch outcomes the claims mention. -/

/-- The Skipped outcome returned on line 69. -/
def skippedResult : AlertResult :=
  { AlertStatus := "Skipped".toList,
    Message := "No critical action required.".toList }

/-- The FAILED outcome returned on line 95 when the caregiver contact is
missing. -/
def missingContactResult : AlertResult :=
  { AlertStatus := "FAILED".toList,
    Message := "Caregiver Email missing in DynamoDB.".toList }

/-- The EMAIL_SENT_CONFIRMED outcome returned on line 93. -/
def confirmedResult (t e : Str) : AlertResult :=
  { AlertStatus := "EMAIL_SENT_CONFIRMED".toList,
    Message := "Guaranteed email alert sent for ".toList ++ t
      ++ " to caregiver: ".toList ++ e }

/-- The FAILED outcome returned on line 99 for a caught `ClientError`. -/
def sesErrorResult (m : Str) : AlertResult :=
  { AlertStatus := "FAILED".toList, Message := "SES Error: ".toList ++ m }

/-- A verdict string that is neither NONE nor ERROR fails both string
comparisons on line 68. -/
lemma isStrVal_false_of_ne {t s : Str} (h : t ≠ s) :
    isStrVal (Json.str t) s = false := by
  simpa [isStrVal] using h

/-- Dispatch on a real emergency with present verdict fields and a truthy
caregiver email: `send_alert` issues exactly the one request of lines
85-92 and maps the SES outcome to its result. -/
lemma send_alert_send_branch {ses : SendReq → SesOutcome} {pd : PatientData}
    {cls : Json} {t : Str} {a : Json} {e : Str}
    (h_et : jsonGet cls "emergency_type".toList = some (Json.str t))
    (hN : t ≠ "NONE".toList) (hE : t ≠ "ERROR".toList)
    (h_act : jsonGet cls "action".toList = some a)
    (h_mail : pd.Caregiver_Email = some e) (he : e ≠ []) :
    send_alert ses pd cls =
      (match ses (alert_request pd (Json.str t) a e) with
       | .ack => (.ok (confirmedResult t e), [alert_request pd (Json.str t) a e])
       | .clientError m =>
          (.ok (sesErrorResult m), [alert_request pd (Json.str t) a e])
       | .raised err => (.error err, [alert_request pd (Json.str t) a e])) := by
  have hne : (pyTruthy (some e)) = true := by
    cases e with
    | nil => exact absurd rfl he
    | cons c cs => rfl
  unfold send_alert
  rw [h_et, h_act, h_mail]
  simp only [isStrVal_false_of_ne hN, isStrVal_false_of_ne hE, Bool.or_self,
    Bool.false_eq_true, if_false, hne, if_true, Option.getD_some]
  cases ses (alert_request pd (Json.str t) a e) with
  | ack => simp [confirmedResult, pyStrOf]
  | clientError m => simp [sesErrorResult]
  | raised err => simp

/-- Workflow run lemma: a submit request whose body parses, whose patient
is found, whose classification returns a verdict and whose dispatch
returns a result reaches the success envelope with one DynamoDB read and
one Bedrock invocation. -/
lemma lambda_handler_success_run {w : Clients} {ev : LambdaEvent} {u : Str}
    {pd : PatientData} {cls : Json} {ar : AlertResult} {calls : List SendReq}
    (hm1 : ev.httpMethod ≠ none) (hm2 : ev.httpMethod ≠ some "GET".toList)
    (hu : compute_user_input ev.body = .ok u)
    (hd : w.dynamodb = .ok (some pd))
    (hcls : classify_emergency w.bedrock_runtime u = .ok cls)
    (hsend : send_alert w.ses_client pd cls = (.ok ar, calls)) :
    lambda_handler (some w) ev = (success_response u cls pd ar, ⟨1, 1, calls⟩) := by
  have hgate : ¬ (ev.httpMethod = none ∨ ev.httpMethod = some "GET".toList) := by
    rintro (h | h)
    · exact hm1 h
    · exact hm2 h
  simp only [lambda_handler, if_neg hgate, hu, get_patient_data, hd, hcls, hsend]

/-- C5: for every verdict whose `emergency_type` is NONE or ERROR,
`send_alert` returns the Skipped outcome and performs no mail-send
call. -/
theorem skip_on_none_or_error (ses : SendReq → SesOutcome)
    (pd : PatientData) (cls : Json) (t : Str)
    (h_et : jsonGet cls "emergency_type".toList = some (Json.str t))
    (ht : t = "NONE".toList ∨ t = "ERROR".toList) :
    send_alert ses pd cls = (.ok skippedResult, []) := by
  unfold send_alert
  rw [h_et]
  rcases ht with ht | ht <;> subst ht <;> simp [isStrVal, skippedResult]

/-- Witness for C5: the ERROR sentinel verdict is skipped with no send. -/
theorem skip_on_none_or_error_witness :
    send_alert (fun _ => SesOutcome.ack)
      ⟨"Mary".toList, "82".toList, "AFib".toList, "Aspirin".toList,
        some "caregiver@example.com".toList⟩ errorVerdict
      = (.ok skippedResult, []) :=
  skip_on_none_or_error _ _ errorVerdict "ERROR".toList rfl (Or.inr rfl)

/-- C6: for every verdict with a real emergency type and every profile
with a (non-empty) caregiver email, when the mail service acknowledges
the send, `send_alert` performs exactly one mail-send call whose
recipient is that caregiver email and returns EMAIL_SENT_CONFIRMED. -/
theorem single_send_on_real_emergency (ses : SendReq → SesOutcome)
    (pd : PatientData) (cls : Json) (t : Str) (a : Json) (e : Str)
    (h_et : jsonGet cls "emergency_type".toList = some (Json.str t))
    (hN : t ≠ "NONE".toList) (hE : t ≠ "ERROR".toList)
    (h_act : jsonGet cls "action".toList = some a)
    (h_mail : pd.Caregiver_Email = some e) (he : e ≠ [])
    (h_ses : ses (alert_request pd (Json.str t) a e) = .ack) :
    send_alert ses pd cls =
      (.ok (confirmedResult t e), [alert_request pd (Json.str t) a e]) ∧
    (alert_request pd (Json.str t) a e).ToAddresses = [e] := by
  refine ⟨?_, rfl⟩
  rw [send_alert_send_branch h_et hN hE h_act h_mail he, h_ses]

/-- Witness for C6: a breathing-crisis verdict with a present caregiver
email and an acknowledging mail service. -/
theorem single_send_on_real_emergency_witness :
    send_alert (fun _ => SesOutcome.ack)
        ⟨"Mary".toList, "82".toList, "AFib".toList, "Aspirin".toList,
          some "caregiver@example.com".toList⟩
        (Json.obj [("emergency_type".toList, Json.str "BREATHING_CRISIS".toList),
                   ("action".toList, Json.str "ADVISE_INHALER".toList)])
      = (.ok (confirmedResult "BREATHING_CRISIS".toList
               "caregiver@example.com".toList),
         [alert_request
            ⟨"Mary".toList, "82".toList, "AFib".toList, "Aspirin".toList,
              some "caregiver@example.com".toList⟩
            (Json.str "BREATHING_CRISIS".toList)
            (Json.str "ADVISE_INHALER".toList)
            "caregiver@example.com".toList]) ∧
    (alert_request
        ⟨"Mary".toList, "82".toList, "AFib".toList, "Aspirin".toList,
          some "caregiver@example.com".toList⟩
        (Json.str "BREATHING_CRISIS".toList)
        (Json.str "ADVISE_INHALER".toList)
        "caregiver@example.com".toList).ToAddresses
      = ["caregiver@example.com".toList] :=
  single_send_on_real_emergency _ _ _ _ _ _ rfl (by decide) (by decide) rfl rfl
    (by decide) rfl

/-- C8: a health probe (no method key, or GET) returns the static ready
acknowledgment and invokes neither the profile store, the classifier nor
the mail service. -/
theorem health_probe_no_side_effects (w : Clients) (ev : LambdaEvent)
    (h : ev.httpMethod = none ∨ ev.httpMethod = some "GET".toList) :
    lambda_handler (some w) ev = (ready_response, ⟨0, 0, []⟩) := by
  simp only [lambda_handler, if_pos h]

/-- Witness for C8: a GET request against fully constructed clients. -/
theorem health_probe_no_side_effects_witness :
    lambda_handler
        (some ⟨fun _ => .error "unused".toList, .ok none, fun _ => .ack⟩)
        ⟨some "GET".toList, none⟩
      = (ready_response, ⟨0, 0, []⟩) :=
  health_probe_no_side_effects _ _ (Or.inr rfl)

/-- C9: client initialization runs before the health-probe gate: when
construction failed the handler returns the statusCode-500
initialization-failure envelope for every request, probes included; and
the ready acknowledgment is returned only when all clients were
constructed. -/
theorem init_gate_before_probe (clients? : Option Clients) (ev : LambdaEvent) :
    (clients? = none →
      lambda_handler clients? ev = (init_fail_response, ⟨0, 0, []⟩)) ∧
    ((lambda_handler clients? ev).1 = ready_response → clients? ≠ none) := by
  constructor
  · rintro rfl
    rfl
  · intro h hnone
    subst hnone
    have : (init_fail_response, (⟨0, 0, []⟩ : Trace)).1 = ready_response := h
    have h500 : init_fail_response.statusCode = ready_response.statusCode :=
      congrArg HttpResponse.statusCode this
    simp [init_fail_response, ready_response] at h500

/-- The not-found message raised on line 127. -/
def notFoundDetail : Str :=
  "Patient ID ".toList ++ PATIENT_ID ++ " not found.".toList

/-- C4: when the profile store returns absent for the configured patient
identifier, a submit request gets the failure envelope whose error detail
names that identifier, and neither the classifier nor the dispatcher is
invoked (no Bedrock invocation, no SES call). -/
theorem profile_not_found_aborts (w : Clients) (ev : LambdaEvent) (u : Str)
    (hm1 : ev.httpMethod ≠ none) (hm2 : ev.httpMethod ≠ some "GET".toList)
    (hu : compute_user_input ev.body = .ok u)
    (hd : w.dynamodb = .ok none) :
    lambda_handler (some w) ev = (error_response notFoundDetail, ⟨1, 0, []⟩) ∧
    jsonGet (lambda_handler (some w) ev).1.body "error_detail".toList
      = some (Json.str ("Patient ID ".toList ++ PATIENT_ID
          ++ " not found.".toList)) ∧
    (lambda_handler (some w) ev).1.statusCode = 500 := by
  have hgate : ¬ (ev.httpMethod = none ∨ ev.httpMethod = some "GET".toList) := by
    rintro (h | h)
    · exact hm1 h
    · exact hm2 h
  have hmain : lambda_handler (some w) ev
      = (error_response notFoundDetail, ⟨1, 0, []⟩) := by
    simp only [lambda_handler, if_neg hgate, hu, get_patient_data, hd,
      notFoundDetail]
  refine ⟨hmain, ?_, ?_⟩ <;> rw [hmain] <;> rfl

/-- Witness for C4: a POST submit whose store has no item for P101. -/
theorem profile_not_found_aborts_witness :
    lambda_handler
        (some ⟨fun _ => .error "unused".toList, .ok none, fun _ => .ack⟩)
        ⟨some "POST".toList,
          some "\x7b\"symptoms\": \"chest pain\"\x7d".toList⟩
      = (error_response notFoundDetail, ⟨1, 0, []⟩) ∧
    jsonGet (lambda_handler
        (some ⟨fun _ => .error "unused".toList, .ok none, fun _ => .ack⟩)
        ⟨some "POST".toList,
          some "\x7b\"symptoms\": \"chest pain\"\x7d".toList⟩).1.body
        "error_detail".toList
      = some (Json.str ("Patient ID ".toList ++ PATIENT_ID
          ++ " not found.".toList)) ∧
    (lambda_handler
        (some ⟨fun _ => .error "unused".toList, .ok none, fun _ => .ack⟩)
        ⟨some "POST".toList,
          some "\x7b\"symptoms\": \"chest pain\"\x7d".toList⟩).1.statusCode
      = 500 :=
  profile_not_found_aborts _ _ "chest pain".toList
    (by decide) (by decide) rfl rfl

/-- C3: a mail-service rejection (a `ClientError` from `send_email`) does
not abort the workflow: `send_alert` returns FAILED with the provider's
rejection reason, and the handler still returns the application-success
envelope carrying status "Success". -/
theorem ses_rejection_nonfatal (w : Clients) (ev : LambdaEvent) (u : Str)
    (pd : PatientData) (cls : Json) (t : Str) (a : Json) (e m : Str)
    (hm1 : ev.httpMethod ≠ none) (hm2 : ev.httpMethod ≠ some "GET".toList)
    (hu : compute_user_input ev.body = .ok u)
    (hd : w.dynamodb = .ok (some pd))
    (hcls : classify_emergency w.bedrock_runtime u = .ok cls)
    (h_et : jsonGet cls "emergency_type".toList = some (Json.str t))
    (hN : t ≠ "NONE".toList) (hE : t ≠ "ERROR".toList)
    (h_act : jsonGet cls "action".toList = some a)
    (h_mail : pd.Caregiver_Email = some e) (he : e ≠ [])
    (h_ses : w.ses_client (alert_request pd (Json.str t) a e)
      = .clientError m) :
    send_alert w.ses_client pd cls =
      (.ok (sesErrorResult m), [alert_request pd (Json.str t) a e]) ∧
    lambda_handler (some w) ev =
      (success_response u cls pd (sesErrorResult m),
       ⟨1, 1, [alert_request pd (Json.str t) a e]⟩) ∧
    jsonGet (lambda_handler (some w) ev).1.body "status".toList
      = some (Json.str "Success".toList) ∧
    (lambda_handler (some w) ev).1.statusCode = 200 := by
  have hsend : send_alert w.ses_client pd cls =
      (.ok (sesErrorResult m), [alert_request pd (Json.str t) a e]) := by
    rw [send_alert_send_branch h_et hN hE h_act h_mail he, h_ses]
  have hrun := lambda_handler_success_run hm1 hm2 hu hd hcls hsend
  refine ⟨hsend, hrun, ?_, ?_⟩ <;> rw [hrun] <;> rfl

/-- Fixed collaborators for the C3 witness: the classifier completion is
the exact verdict JSON and the mail service rejects every send. -/
def rejectingClients : Clients :=
  ⟨fun _ => .ok "\x7b\"emergency_type\": \"CARDIAC_STROKE\", \"action\": \"MOCK_AMBULANCE_DISPATCH\"\x7d".toList,
   .ok (some ⟨"Mary".toList, "82".toList, "AFib".toList, "Aspirin".toList,
     some "caregiver@example.com".toList⟩),
   fun _ => .clientError "Email address is not verified.".toList⟩

/-- The submit event used by the handler-level witnesses. -/
def submitEvent : LambdaEvent :=
  ⟨some "POST".toList, some "\x7b\"symptoms\": \"severe chest pain\"\x7d".toList⟩

/-- Witness for C3: the rejecting mail service yields FAILED inside a
status-200 Success envelope. -/
theorem ses_rejection_nonfatal_witness :
    send_alert rejectingClients.ses_client
        ⟨"Mary".toList, "82".toList, "AFib".toList, "Aspirin".toList,
          some "caregiver@example.com".toList⟩
        (Json.obj [("emergency_type".toList, Json.str "CARDIAC_STROKE".toList),
                   ("action".toList, Json.str "MOCK_AMBULANCE_DISPATCH".toList)])
      = (.ok (sesErrorResult "Email address is not verified.".toList),
         [alert_request
            ⟨"Mary".toList, "82".toList, "AFib".toList, "Aspirin".toList,
              some "caregiver@example.com".toList⟩
            (Json.str "CARDIAC_STROKE".toList)
            (Json.str "MOCK_AMBULANCE_DISPATCH".toList)
            "caregiver@example.com".toList]) ∧
    lambda_handler (some rejectingClients) submitEvent =
      (success_response "severe chest pain".toList
        (Json.obj [("emergency_type".toList, Json.str "CARDIAC_STROKE".toList),
                   ("action".toList, Json.str "MOCK_AMBULANCE_DISPATCH".toList)])
        ⟨"Mary".toList, "82".toList, "AFib".toList, "Aspirin".toList,
          some "caregiver@example.com".toList⟩
        (sesErrorResult "Email address is not verified.".toList),
       ⟨1, 1, [alert_request
          ⟨"Mary".toList, "82".toList, "AFib".toList, "Aspirin".toList,
            some "caregiver@example.com".toList⟩
          (Json.str "CARDIAC_STROKE".toList)
          (Json.str "MOCK_AMBULANCE_DISPATCH".toList)
          "caregiver@example.com".toList]⟩) ∧
    jsonGet (lambda_handler (some rejectingClients) submitEvent).1.body
        "status".toList
      = some (Json.str "Success".toList) ∧
    (lambda_handler (some rejectingClients) submitEvent).1.statusCode = 200 :=
  ses_rejection_nonfatal rejectingClients submitEvent
    "severe chest pain".toList _ _ "CARDIAC_STROKE".toList _
    "caregiver@example.com".toList "Email address is not verified.".toList
    (by decide) (by decide) rfl rfl rfl rfl (by decide) (by decide) rfl rfl
    (by decide) rfl

/-- C7: a real emergency verdict with no caregiver email in the profile
yields FAILED with the missing-contact message, performs no mail-send
call, and the workflow still reports overall success. -/
theorem missing_caregiver_failed_nonfatal (w : Clients) (ev : LambdaEvent)
    (u : Str) (pd : PatientData) (cls : Json) (t : Str) (a : Json)
    (hm1 : ev.httpMethod ≠ none) (hm2 : ev.httpMethod ≠ some "GET".toList)
    (hu : compute_user_input ev.body = .ok u)
    (hd : w.dynamodb = .ok (some pd))
    (hcls : classify_emergency w.bedrock_runtime u = .ok cls)
    (h_et : jsonGet cls "emergency_type".toList = some (Json.str t))
    (hN : t ≠ "NONE".toList) (hE : t ≠ "ERROR".toList)
    (h_act : jsonGet cls "action".toList = some a)
    (h_mail : pd.Caregiver_Email = none) :
    send_alert w.ses_client pd cls = (.ok missingContactResult, []) ∧
    lambda_handler (some w) ev =
      (success_response u cls pd missingContactResult, ⟨1, 1, []⟩) ∧
    jsonGet (lambda_handler (some w) ev).1.body "status".toList
      = some (Json.str "Success".toList) ∧
    (lambda_handler (some w) ev).1.statusCode = 200 := by
  have hsend : send_alert w.ses_client pd cls
      = (.ok missingContactResult, []) := by
    unfold send_alert
    rw [h_et, h_act, h_mail]
    simp only [isStrVal_false_of_ne hN, isStrVal_false_of_ne hE, Bool.or_self,
      Bool.false_eq_true, if_false, pyTruthy, missingContactResult]
  have hrun := lambda_handler_success_run hm1 hm2 hu hd hcls hsend
  refine ⟨hsend, hrun, ?_, ?_⟩ <;> rw [hrun] <;> rfl

/-- Fixed collaborators for the C7 witness: the profile has no caregiver
email; the classifier returns a falls verdict. -/
def noCaregiverClients : Clients :=
  ⟨fun _ => .ok "\x7b\"emergency_type\": \"FALLS_FRACTURES\", \"action\": \"ALERT_FAMILY\"\x7d".toList,
   .ok (some ⟨"Mary".toList, "82".toList, "AFib".toList, "Aspirin".toList,
     none⟩),
   fun _ => .ack⟩

/-- Witness for C7: missing caregiver email gives FAILED, no SES call,
and a status-200 Success envelope. -/
theorem missing_caregiver_failed_nonfatal_witness :
    send_alert noCaregiverClients.ses_client
        ⟨"Mary".toList, "82".toList, "AFib".toList, "Aspirin".toList, none⟩
        (Json.obj [("emergency_type".toList, Json.str "FALLS_FRACTURES".toList),
                   ("action".toList, Json.str "ALERT_FAMILY".toList)])
      = (.ok missingContactResult, []) ∧
    lambda_handler (some noCaregiverClients) submitEvent =
      (success_response "severe chest pain".toList
        (Json.obj [("emergency_type".toList, Json.str "FALLS_FRACTURES".toList),
                   ("action".toList, Json.str "ALERT_FAMILY".toList)])
        ⟨"Mary".toList, "82".toList, "AFib".toList, "Aspirin".toList, none⟩
        missingContactResult, ⟨1, 1, []⟩) ∧
    jsonGet (lambda_handler (some noCaregiverClients) submitEvent).1.body
        "status".toList
      = some (Json.str "Success".toList) ∧
    (lambda_handler (some noCaregiverClients) submitEvent).1.statusCode
      = 200 :=
  missing_caregiver_failed_nonfatal noCaregiverClients submitEvent
    "severe chest pain".toList _ _ "FALLS_FRACTURES".toList _
    (by decide) (by decide) rfl rfl rfl rfl (by decide) (by decide) rfl rfl

/-- C10: on a confirmed send, the caregiver address appears inside the
success body's alert-outcome Message ("... to caregiver: address"), while
the patient-info packet in the same body has no caregiver-email and no
patient-identifier field. -/
theorem confirmed_send_exposes_caregiver_email (w : Clients)
    (ev : LambdaEvent) (u : Str) (pd : PatientData) (cls : Json) (t : Str)
    (a : Json) (e : Str)
    (hm1 : ev.httpMethod ≠ none) (hm2 : ev.httpMethod ≠ some "GET".toList)
    (hu : compute_user_input ev.body = .ok u)
    (hd : w.dynamodb = .ok (some pd))
    (hcls : classify_emergency w.bedrock_runtime u = .ok cls)
    (h_et : jsonGet cls "emergency_type".toList = some (Json.str t))
    (hN : t ≠ "NONE".toList) (hE : t ≠ "ERROR".toList)
    (h_act : jsonGet cls "action".toList = some a)
    (h_mail : pd.Caregiver_Email = some e) (he : e ≠ [])
    (h_ses : w.ses_client (alert_request pd (Json.str t) a e) = .ack) :
    lambda_handler (some w) ev =
      (success_response u cls pd (confirmedResult t e),
       ⟨1, 1, [alert_request pd (Json.str t) a e]⟩) ∧
    jsonGet (lambda_handler (some w) ev).1.body "alert_status".toList
      = some (Json.obj
          [("AlertStatus".toList, Json.str "EMAIL_SENT_CONFIRMED".toList),
           ("Message".toList, Json.str (confirmedResult t e).Message)]) ∧
    (∃ pre, (confirmedResult t e).Message = pre ++ e) ∧
    jsonGet (lambda_handler (some w) ev).1.body "patient_info_packet".toList
      = some (Json.obj
          [("name".toList, Json.str pd.Name),
           ("comorbidities".toList, Json.str pd.Comorbidities),
           ("meds".toList, Json.str pd.Meds)]) ∧
    jsonGet (Json.obj
          [("name".toList, Json.str pd.Name),
           ("comorbidities".toList, Json.str pd.Comorbidities),
           ("meds".toList, Json.str pd.Meds)]) "Caregiver_Email".toList
      = none ∧
    jsonGet (Json.obj
          [("name".toList, Json.str pd.Name),
           ("comorbidities".toList, Json.str pd.Comorbidities),
           ("meds".toList, Json.str pd.Meds)]) "PatientID".toList
      = none := by
  have hsend : send_alert w.ses_client pd cls =
      (.ok (confirmedResult t e), [alert_request pd (Json.str t) a e]) := by
    rw [send_alert_send_branch h_et hN hE h_act h_mail he, h_ses]
  have hrun := lambda_handler_success_run hm1 hm2 hu hd hcls hsend
  refine ⟨hrun, ?_, ?_, ?_, rfl, rfl⟩
  · rw [hrun]
    rfl
  · exact ⟨"Guaranteed email alert sent for ".toList ++ t
      ++ " to caregiver: ".toList, by simp [confirmedResult]⟩
  · rw [hrun]
    rfl

/-- Fixed collaborators for the C10 witness: breathing-crisis verdict,
caregiver present, acknowledging mail service. -/
def confirmingClients : Clients :=
  ⟨fun _ => .ok "\x7b\"emergency_type\": \"BREATHING_CRISIS\", \"action\": \"ADVISE_INHALER\"\x7d".toList,
   .ok (some ⟨"Mary".toList, "82".toList, "AFib".toList, "Aspirin".toList,
     some "caregiver@example.com".toList⟩),
   fun _ => .ack⟩

/-- Witness for C10 at a concrete confirmed send. -/
theorem confirmed_send_exposes_caregiver_email_witness :
    lambda_handler (some confirmingClients) submitEvent =
      (success_response "severe chest pain".toList
        (Json.obj [("emergency_type".toList, Json.str "BREATHING_CRISIS".toList),
                   ("action".toList, Json.str "ADVISE_INHALER".toList)])
        ⟨"Mary".toList, "82".toList, "AFib".toList, "Aspirin".toList,
          some "caregiver@example.com".toList⟩
        (confirmedResult "BREATHING_CRISIS".toList
          "caregiver@example.com".toList),
       ⟨1, 1, [alert_request
          ⟨"Mary".toList, "82".toList, "AFib".toList, "Aspirin".toList,
            some "caregiver@example.com".toList⟩
          (Json.str "BREATHING_CRISIS".toList)
          (Json.str "ADVISE_INHALER".toList)
          "caregiver@example.com".toList]⟩) ∧
    jsonGet (lambda_handler (some confirmingClients) submitEvent).1.body
        "alert_status".toList
      = some (Json.obj
          [("AlertStatus".toList, Json.str "EMAIL_SENT_CONFIRMED".toList),
           ("Message".toList,
            Json.str (confirmedResult "BREATHING_CRISIS".toList
              "caregiver@example.com".toList).Message)]) ∧
    (∃ pre, (confirmedResult "BREATHING_CRISIS".toList
        "caregiver@example.com".toList).Message
      = pre ++ "caregiver@example.com".toList) ∧
    jsonGet (lambda_handler (some confirmingClients) submitEvent).1.body
        "patient_info_packet".toList
      = some (Json.obj
          [("name".toList, Json.str "Mary".toList),
           ("comorbidities".toList, Json.str "AFib".toList),
           ("meds".toList, Json.str "Aspirin".toList)]) ∧
    jsonGet (Json.obj
          [("name".toList, Json.str "Mary".toList),
           ("comorbidities".toList, Json.str "AFib".toList),
           ("meds".toList, Json.str "Aspirin".toList)]) "Caregiver_Email".toList
      = none ∧
    jsonGet (Json.obj
          [("name".toList, Json.str "Mary".toList),
           ("comorbidities".toList, Json.str "AFib".toList),
           ("meds".toList, Json.str "Aspirin".toList)]) "PatientID".toList
      = none :=
  confirmed_send_exposes_caregiver_email confirmingClients submitEvent
    "severe chest pain".toList _ _ "BREATHING_CRISIS".toList _
    "caregiver@example.com".toList
    (by decide) (by decide) rfl rfl rfl rfl (by decide) (by decide) rfl rfl
    (by decide) rfl

/-! Lemmas about `dropWhile`, `findIdx?` and slicing across an embedded
segment, used to reason about the brace-slice extraction. -/

/-- Dropping a prefix stops at the first element the predicate rejects. -/
lemma dropWhile_append_cons {α : Type} (p : α → Bool) (a : List α) (c : α)
    (r : List α) (hc : p c = false) :
    (a ++ c :: r).dropWhile p = a.dropWhile p ++ c :: r := by
  rw [List.dropWhile_append]
  by_cases h : (a.dropWhile p).isEmpty
  · rw [if_pos h, List.isEmpty_iff.mp h, List.nil_append, List.dropWhile_cons,
      if_neg (by simp [hc])]
  · rw [if_neg h]

/-- The first index of an element that occurs right after a prefix free of
it. -/
lemma findIdx?_append_cons {α : Type} (p : α → Bool) (a : List α) (c : α)
    (r : List α) (ha : ∀ x ∈ a, p x = false) (hc : p c = true) :
    (a ++ c :: r).findIdx? p = some a.length := by
  rw [List.findIdx?_append, List.findIdx?_eq_none_iff.mpr ha, Option.none_or,
    List.findIdx?_cons, if_pos hc]
  simp

/-- Python `find` locates the first occurrence after a clean prefix. -/
lemma pyFind_sandwich (a r : Str) (c : Char) (ha : c ∉ a) :
    pyFind (a ++ c :: r) c = (a.length : Int) := by
  have hall : ∀ x ∈ a, (x == c) = false := by
    intro x hx
    exact beq_eq_false_iff_ne.mpr (fun hxc => ha (hxc ▸ hx))
  unfold pyFind
  rw [findIdx?_append_cons _ _ _ _ hall (by simp)]

/-- Python `rfind` locates the last occurrence before a clean suffix. -/
lemma pyRFind_sandwich (a r : Str) (c : Char) (hr : c ∉ r) :
    pyRFind (a ++ c :: r) c = (a.length : Int) := by
  have hall : ∀ x ∈ r.reverse, (x == c) = false := by
    intro x hx
    exact beq_eq_false_iff_ne.mpr
      (fun hxc => hr (hxc ▸ (List.mem_reverse.mp hx)))
  unfold pyRFind
  have hrev : (a ++ c :: r).reverse = r.reverse ++ c :: a.reverse := by
    simp
  rw [hrev, findIdx?_append_cons _ _ _ _ hall (by simp)]
  simp only [List.length_append, List.length_cons, List.length_reverse]
  push_cast
  omega

/-- Slicing from the embedded segment's first index to one past its last
index recovers exactly the segment. -/
lemma slice_sandwich (q1 mid q2 : Str) :
    pySlice (q1 ++ ('\x7b' :: (mid ++ ['\x7d'])) ++ q2) (q1.length : Int)
        ((q1.length : Int) + (mid.length : Int) + 2)
      = '\x7b' :: (mid ++ ['\x7d']) := by
  unfold pySlice
  have h1 : ((q1.length : Int) + (mid.length : Int) + 2).toNat
      = q1.length + (mid.length + 2) := by omega
  have h2 : ((q1.length : Int)).toNat = q1.length := Int.toNat_natCast _
  have hl : (q1 ++ ('\x7b' :: (mid ++ ['\x7d']))).length
      = q1.length + (mid.length + 2) := by
    simp
  rw [h1, h2, List.take_left' hl, List.drop_left]

/-- Stripping whitespace around text that embeds a non-whitespace segment
leaves the segment intact and strips only the surrounding prose. -/
lemma pyStrip_brace_sandwich (a b mid : Str) :
    pyStrip (a ++ ('\x7b' :: (mid ++ ['\x7d'])) ++ b)
      = a.dropWhile pyIsSpace ++ ('\x7b' :: (mid ++ ['\x7d']))
        ++ (b.reverse.dropWhile pyIsSpace).reverse := by
  have hob : pyIsSpace '\x7b' = false := rfl
  have hcb : pyIsSpace '\x7d' = false := rfl
  unfold pyStrip
  have e1 : a ++ ('\x7b' :: (mid ++ ['\x7d'])) ++ b
      = a ++ '\x7b' :: (mid ++ ['\x7d'] ++ b) := by
    simp
  rw [e1, dropWhile_append_cons _ _ _ _ hob]
  have e2 : ((a.dropWhile pyIsSpace) ++ '\x7b' :: (mid ++ ['\x7d'] ++ b)).reverse
      = b.reverse ++ '\x7d' :: (mid.reverse
          ++ ('\x7b' :: (a.dropWhile pyIsSpace).reverse)) := by
    simp
  rw [e2, dropWhile_append_cons _ _ _ _ hcb]
  have e3 : ((b.reverse.dropWhile pyIsSpace)
        ++ '\x7d' :: (mid.reverse
          ++ ('\x7b' :: (a.dropWhile pyIsSpace).reverse))).reverse
      = (a.dropWhile pyIsSpace) ++ '\x7b' :: (mid ++ ['\x7d']
          ++ (b.reverse.dropWhile pyIsSpace).reverse) := by
    simp
  rw [e3]
  simp

/-- The exact verdict object text of the round-trip claim. -/
def verdictText : Str :=
  "\x7b\"emergency_type\":\"BREATHING_CRISIS\",\"action\":\"ADVISE_INHALER\"\x7d".toList

/-- The interior of `verdictText` between its braces. -/
def verdictMid : Str :=
  "\"emergency_type\":\"BREATHING_CRISIS\",\"action\":\"ADVISE_INHALER\"".toList

/-- The parsed breathing-crisis verdict object. -/
def breathingVerdict : Json :=
  Json.obj [("emergency_type".toList, Json.str "BREATHING_CRISIS".toList),
            ("action".toList, Json.str "ADVISE_INHALER".toList)]

/-- C2 counterexample: with one extra opening brace in the leading prose,
the brace-slice extraction does not parse to the verdict object: the slice
spans the prose brace, `json.loads` raises, and the exception propagates.
So the round trip fails for arbitrary surrounding prose. -/
theorem brace_slice_arbitrary_prose_cex :
    classify_emergency
        (fun _ => .ok ('\x7b' :: verdictText)) "wheezing".toList
      = .error "Expecting property name".toList ∧
    classify_emergency
        (fun _ => .ok ('\x7b' :: verdictText)) "wheezing".toList
      ≠ .ok breathingVerdict := by
  have h1 : classify_emergency
      (fun _ => .ok ('\x7b' :: verdictText)) "wheezing".toList
      = .error "Expecting property name".toList := rfl
  refine ⟨h1, fun h => ?_⟩
  rw [h1] at h
  exact Except.noConfusion h

/-- C2 as amended: the verdict object embedded in surrounding prose or
markdown survives the brace-slice extraction and parses to exactly the
verdict object, provided the leading prose contains no opening brace and
the trailing prose no closing brace (so that the first opening brace and
the last closing brace of the completion are the object's own). -/
theorem brace_slice_round_trip (p1 p2 inp : Str)
    (h1 : '\x7b' ∉ p1) (h2 : '\x7d' ∉ p2) :
    classify_emergency (fun _ => .ok (p1 ++ verdictText ++ p2)) inp
      = .ok breathingVerdict := by
  have hshape : verdictText = '\x7b' :: (verdictMid ++ ['\x7d']) := rfl
  have hq1 : '\x7b' ∉ p1.dropWhile pyIsSpace :=
    fun hx => h1 ((List.dropWhile_sublist _).subset hx)
  have hq2 : '\x7d' ∉ (p2.reverse.dropWhile pyIsSpace).reverse :=
    fun hx => h2 (List.mem_reverse.mp
      ((List.dropWhile_sublist _).subset (List.mem_reverse.mp hx)))
  have hstrip : pyStrip (p1 ++ verdictText ++ p2)
      = p1.dropWhile pyIsSpace ++ verdictText
        ++ (p2.reverse.dropWhile pyIsSpace).reverse := by
    rw [hshape]
    exact pyStrip_brace_sandwich p1 p2 verdictMid
  set q1 := p1.dropWhile pyIsSpace with hq1def
  set q2 := (p2.reverse.dropWhile pyIsSpace).reverse with hq2def
  have hfind : pyFind (q1 ++ verdictText ++ q2) '\x7b' = (q1.length : Int) := by
    have e : q1 ++ verdictText ++ q2
        = q1 ++ '\x7b' :: (verdictMid ++ ['\x7d'] ++ q2) := by
      rw [hshape]
      simp
    rw [e]
    exact pyFind_sandwich _ _ _ hq1
  have hrfind : pyRFind (q1 ++ verdictText ++ q2) '\x7d'
      = ((q1 ++ '\x7b' :: verdictMid).length : Int) := by
    have e : q1 ++ verdictText ++ q2
        = (q1 ++ '\x7b' :: verdictMid) ++ '\x7d' :: q2 := by
      rw [hshape]
      simp
    rw [e]
    exact pyRFind_sandwich _ _ _ hq2
  have hlen : ((q1 ++ '\x7b' :: verdictMid).length : Int) + 1
      = (q1.length : Int) + (verdictMid.length : Int) + 2 := by
    push_cast [List.length_append, List.length_cons]
    ring
  have hslice : pySlice (q1 ++ verdictText ++ q2) (q1.length : Int)
      ((q1.length : Int) + (verdictMid.length : Int) + 2)
      = verdictText := by
    rw [hshape]
    exact slice_sandwich q1 verdictMid q2
  have hparse : json_loads verdictText = .ok breathingVerdict := rfl
  have hcond : (pyFind (q1 ++ verdictText ++ q2) '\x7b' ≠ -1 ∧
      pyRFind (q1 ++ verdictText ++ q2) '\x7d' + 1 ≠ -1 ∧
      pyFind (q1 ++ verdictText ++ q2) '\x7b'
        < pyRFind (q1 ++ verdictText ++ q2) '\x7d' + 1) := by
    rw [hfind, hrfind]
    refine ⟨by omega, by omega, by omega⟩
  simp only [classify_emergency, hstrip]
  rw [if_pos hcond, hfind, hrfind, hlen, hslice]
  exact hparse

/-- Witness for C2: the verdict object inside a markdown code fence. -/
theorem brace_slice_round_trip_witness :
    classify_emergency
        (fun _ => .ok ("Sure! Here is the JSON:\n```json\n".toList
          ++ verdictText ++ "\n``` Hope this helps.".toList))
        "I cannot breathe".toList
      = .ok breathingVerdict :=
  brace_slice_round_trip "Sure! Here is the JSON:\n```json\n".toList
    "\n``` Hope this helps.".toList "I cannot breathe".toList
    (by decide) (by decide)

/-- C1 counterexample: a completion text with a valid brace pair whose
sliced substring is not valid JSON makes `classify_emergency` raise (the
`json.loads` exception propagates; there is no handler inside the
function), rather than return the ERROR sentinel. -/
theorem classifier_parse_failure_propagates_cex :
    classify_emergency (fun _ => .ok "\x7bbad\x7d".toList)
        "I feel dizzy".toList
      = .error "Expecting property name".toList ∧
    classify_emergency (fun _ => .ok "\x7bbad\x7d".toList)
        "I feel dizzy".toList
      ≠ .ok errorVerdict := by
  have h1 : classify_emergency (fun _ => .ok "\x7bbad\x7d".toList)
      "I feel dizzy".toList
      = .error "Expecting property name".toList := rfl
  refine ⟨h1, fun h => ?_⟩
  rw [h1] at h
  exact Except.noConfusion h

/-- C1 as amended: when no valid brace pair is found in the (stripped)
completion text, `classify_emergency` returns exactly the ERROR sentinel
and `send_alert` then reports Skipped with no mail call; but when the
model invocation fails, or the sliced substring fails to parse, the
exception propagates out of `classify_emergency` (it is caught only at
the handler boundary). -/
theorem classifier_failure_paths (bed : Str → Except Str Str) (inp : Str)
    (ses : SendReq → SesOutcome) (pd : PatientData) :
    (∀ e, bed (prompt_template inp) = .error e →
      classify_emergency bed inp = .error e) ∧
    (∀ raw, bed (prompt_template inp) = .ok raw →
      (¬ (pyFind (pyStrip raw) '\x7b' ≠ -1 ∧
            pyRFind (pyStrip raw) '\x7d' + 1 ≠ -1 ∧
            pyFind (pyStrip raw) '\x7b' < pyRFind (pyStrip raw) '\x7d' + 1) →
        classify_emergency bed inp = .ok errorVerdict ∧
        send_alert ses pd errorVerdict = (.ok skippedResult, [])) ∧
      (∀ e, (pyFind (pyStrip raw) '\x7b' ≠ -1 ∧
            pyRFind (pyStrip raw) '\x7d' + 1 ≠ -1 ∧
            pyFind (pyStrip raw) '\x7b' < pyRFind (pyStrip raw) '\x7d' + 1) →
        json_loads (pySlice (pyStrip raw) (pyFind (pyStrip raw) '\x7b')
            (pyRFind (pyStrip raw) '\x7d' + 1)) = .error e →
        classify_emergency bed inp = .error e)) := by
  refine ⟨fun e h => ?_, fun raw h => ⟨fun hcond => ⟨?_, rfl⟩, fun e hcond hparse => ?_⟩⟩
  · simp only [classify_emergency, h]
  · simp only [classify_emergency, h]
    rw [if_neg hcond]
  · simp only [classify_emergency, h]
    rw [if_pos hcond]
    exact hparse

end LifeGuard
